import Mathlib

/-!
Shallow embedding of the `camera_controllers` library (Piston):
a first-person camera controller (`src/first_person.rs`) and an
orbit-zoom camera controller (`src/orbit_zoom_camera.rs`).

The generic float parameter `T : Float` of the Rust code is modelled by ℝ.
Rust's `%` on floats (remainder of truncated division) is modelled by
`rustRem`.  The bitflag key sets are modelled as records of `Bool`s.
-/

noncomputable section

namespace CameraControllers

/-- Truncation toward zero, as Rust's `trunc` on floats. -/
def rustTrunc (x : ℝ) : ℝ :=
  if 0 ≤ x then (⌊x⌋ : ℝ) else (⌈x⌉ : ℝ)

/-- Rust's `%` on floats: remainder of truncated division,
`a % b = a - b * trunc (a / b)`. -/
def rustRem (a b : ℝ) : ℝ :=
  a - b * rustTrunc (a / b)

/-- The sign function used by the press/release handlers:
`if x == 0 { 0 } else { x.signum() }`. -/
def sgn (x : ℝ) : ℝ :=
  if x = 0 then 0 else if 0 < x then 1 else -1

/-- 3-component vector `[T; 3]` (vecmath). -/
structure V3 where
  x : ℝ
  y : ℝ
  z : ℝ

/-- `vecmath::vec3_add`. -/
def vec3_add (a b : V3) : V3 :=
  ⟨a.x + b.x, a.y + b.y, a.z + b.z⟩

/-- `vecmath::vec3_scale`. -/
def vec3_scale (a : V3) (s : ℝ) : V3 :=
  ⟨a.x * s, a.y * s, a.z * s⟩

/-- Quaternion `(w, [x, y, z])` (quaternion crate). -/
structure Quat where
  w : ℝ
  x : ℝ
  y : ℝ
  z : ℝ

/-- `quaternion::id`. -/
def quatId : Quat := ⟨1, 0, 0, 0⟩

/-- `quaternion::mul`: Hamilton product. -/
def quatMul (p q : Quat) : Quat :=
  ⟨p.w * q.w - p.x * q.x - p.y * q.y - p.z * q.z,
   p.w * q.x + p.x * q.w + p.y * q.z - p.z * q.y,
   p.w * q.y - p.x * q.z + p.y * q.w + p.z * q.x,
   p.w * q.z + p.x * q.y - p.y * q.x + p.z * q.w⟩

/-- `quaternion::conj`. -/
def quatConj (q : Quat) : Quat := ⟨q.w, -q.x, -q.y, -q.z⟩

/-- `quaternion::rotate_vector q v`: the vector part of `q * (0, v) * conj q`. -/
def rotate_vector (q : Quat) (v : V3) : V3 :=
  let r := quatMul (quatMul q ⟨0, v.x, v.y, v.z⟩) (quatConj q)
  ⟨r.x, r.y, r.z⟩

/-- `quaternion::axis_angle axis θ = (cos (θ/2), axis * sin (θ/2))`. -/
def axis_angle (a : V3) (θ : ℝ) : Quat :=
  ⟨Real.cos (θ / 2), a.x * Real.sin (θ / 2), a.y * Real.sin (θ / 2),
   a.z * Real.sin (θ / 2)⟩

/-- Keyboard keys used by the binding presets; `other` stands for any
further key of the input crate. -/
inductive Key where
  | w | a | s | d | e | f | q | z | space | lshift | lctrl
  | other : Nat → Key
deriving DecidableEq

/-- `input::Button`: an opaque button identifier supporting equality. -/
inductive Button where
  | keyboard : Key → Button
  | mouse : Nat → Button
deriving DecidableEq

/-- Modelled from the spec: the external `cam::Camera` pose type is
"position (3 scalars), orientation (represented as yaw+pitch or as a
rotation quaternion)"; its internal matrix math is out of scope.  We keep
position together with the yaw/pitch pair set by `set_yaw_pitch` and the
quaternion set by `set_rotation`. -/
structure Camera where
  position : V3
  yaw : ℝ
  pitch : ℝ
  rotation : Quat

/-- `Camera::new position` with the default orientation. -/
def Camera.new (position : V3) : Camera :=
  ⟨position, 0, 0, quatId⟩

/-- `Camera::set_yaw_pitch`. -/
def Camera.set_yaw_pitch (c : Camera) (yaw pitch : ℝ) : Camera :=
  { c with yaw := yaw, pitch := pitch }

/-- `Camera::set_rotation`. -/
def Camera.set_rotation (c : Camera) (q : Quat) : Camera :=
  { c with rotation := q }

/-! ## First-person controller (`src/first_person.rs`) -/

/-- `first_person::Keys` bitflags: one flag per held movement action. -/
structure FPKeys where
  moveForward : Bool
  moveBackward : Bool
  strafeLeft : Bool
  strafeRight : Bool
  flyUp : Bool
  flyDown : Bool

/-- `Keys::empty()`. -/
def FPKeys.empty : FPKeys := ⟨false, false, false, false, false, false⟩

/-- The movement actions named by the `first_person::Keys` flags. -/
inductive FPAction where
  | moveForward | moveBackward | strafeLeft | strafeRight | flyUp | flyDown
deriving DecidableEq

/-- `keys.insert k`. -/
def FPKeys.insert (ks : FPKeys) : FPAction → FPKeys
  | .moveForward => { ks with moveForward := true }
  | .moveBackward => { ks with moveBackward := true }
  | .strafeLeft => { ks with strafeLeft := true }
  | .strafeRight => { ks with strafeRight := true }
  | .flyUp => { ks with flyUp := true }
  | .flyDown => { ks with flyDown := true }

/-- `keys.remove k`. -/
def FPKeys.remove (ks : FPKeys) : FPAction → FPKeys
  | .moveForward => { ks with moveForward := false }
  | .moveBackward => { ks with moveBackward := false }
  | .strafeLeft => { ks with strafeLeft := false }
  | .strafeRight => { ks with strafeRight := false }
  | .flyUp => { ks with flyUp := false }
  | .flyDown => { ks with flyDown := false }

/-- `keys.contains k`. -/
def FPKeys.contains (ks : FPKeys) : FPAction → Bool
  | .moveForward => ks.moveForward
  | .moveBackward => ks.moveBackward
  | .strafeLeft => ks.strafeLeft
  | .strafeRight => ks.strafeRight
  | .flyUp => ks.flyUp
  | .flyDown => ks.flyDown

/-- `FirstPersonSettings`: button bindings plus speed/sensitivity scalars. -/
structure FirstPersonSettings where
  move_forward_button : Button
  move_backward_button : Button
  strafe_left_button : Button
  strafe_right_button : Button
  fly_up_button : Button
  fly_down_button : Button
  move_faster_button : Button
  speed_horizontal : ℝ
  speed_vertical : ℝ
  mouse_sensitivity_horizontal : ℝ
  mouse_sensitivity_vertical : ℝ

/-- `FirstPersonSettings::keyboard_wasd()`. -/
def FirstPersonSettings.keyboard_wasd : FirstPersonSettings :=
  { move_forward_button := .keyboard .w
    move_backward_button := .keyboard .s
    strafe_left_button := .keyboard .a
    strafe_right_button := .keyboard .d
    fly_up_button := .keyboard .space
    fly_down_button := .keyboard .lshift
    move_faster_button := .keyboard .lctrl
    speed_horizontal := 1
    speed_vertical := 1
    mouse_sensitivity_horizontal := 1
    mouse_sensitivity_vertical := 1 }

/-- `FirstPerson`: the first-person camera controller state. -/
structure FirstPerson where
  settings : FirstPersonSettings
  yaw : ℝ
  pitch : ℝ
  direction : V3
  position : V3
  velocity : ℝ
  keys : FPKeys

/-- `FirstPerson::new(position, settings)`. -/
def FirstPerson.new (position : V3) (settings : FirstPersonSettings) :
    FirstPerson :=
  { settings := settings
    yaw := 0
    pitch := 0
    keys := FPKeys.empty
    direction := ⟨0, 0, 0⟩
    position := position
    velocity := 1 }

/-- `FirstPerson::camera(dt)`: the pose derived from the current state;
position advanced by the dt-based integration along `direction` at the
configured speeds, orientation the current yaw/pitch. -/
def FirstPerson.camera (s : FirstPerson) (dt : ℝ) : Camera :=
  let dh := dt * s.velocity * s.settings.speed_horizontal
  let dx := s.direction.x
  let dy := s.direction.y
  let dz := s.direction.z
  let sy := Real.sin s.yaw
  let cy := Real.cos s.yaw
  let c := Camera.new
    ⟨s.position.x + (sy * dx - cy * dz) * dh,
     s.position.y + dy * dt * s.settings.speed_vertical,
     s.position.z + (sy * dz + cy * dx) * dh⟩
  c.set_yaw_pitch s.yaw s.pitch

/-- The shared body of the `set` closures of the press and release
handlers: take signs of the lateral and forward components and scale both
by `1/√2` when both are nonzero. -/
def normalizeXZ (x z : ℝ) : ℝ × ℝ :=
  let x := sgn x
  let z := sgn z
  if x ≠ 0 ∧ z ≠ 0 then (x / Real.sqrt 2, z / Real.sqrt 2) else (x, z)

/-- The `set` closure of the press handler: normalize the new direction
and mark the action held. -/
def FirstPerson.pressSet (s : FirstPerson) (k : FPAction) (x y z : ℝ) :
    FirstPerson :=
  let p := normalizeXZ x z
  { s with direction := ⟨p.1, y, p.2⟩, keys := s.keys.insert k }

/-- The press handler of `FirstPerson::event` (the `e.press` closure). -/
def FirstPerson.press (s : FirstPerson) (b : Button) : FirstPerson :=
  let dx := s.direction.x
  let dy := s.direction.y
  let dz := s.direction.z
  if b = s.settings.move_forward_button then
    s.pressSet .moveForward (-1) dy dz
  else if b = s.settings.move_backward_button then
    s.pressSet .moveBackward 1 dy dz
  else if b = s.settings.strafe_left_button then
    s.pressSet .strafeLeft dx dy 1
  else if b = s.settings.strafe_right_button then
    s.pressSet .strafeRight dx dy (-1)
  else if b = s.settings.fly_up_button then
    s.pressSet .flyUp dx 1 dz
  else if b = s.settings.fly_down_button then
    s.pressSet .flyDown dx (-1) dz
  else if b = s.settings.move_faster_button then
    { s with velocity := 2 }
  else s

/-- The `release`+`set` combination of the release handler: remove `key`,
restore `rev_val` on the axis when `rev_key` is still held (else 0),
then normalize the direction (the release `set` closure does not touch
the key set). -/
def FirstPerson.releaseSet (s : FirstPerson) (key rev : FPAction)
    (rev_val : ℝ) (axis : FPAction) : FirstPerson :=
  let ks := s.keys.remove key
  let v : ℝ := if ks.contains rev then rev_val else 0
  let dx := s.direction.x
  let dy := s.direction.y
  let dz := s.direction.z
  match axis with
  | .moveForward | .moveBackward =>
      let p := normalizeXZ v dz
      { s with direction := ⟨p.1, dy, p.2⟩, keys := ks }
  | .strafeLeft | .strafeRight =>
      let p := normalizeXZ dx v
      { s with direction := ⟨p.1, dy, p.2⟩, keys := ks }
  | .flyUp | .flyDown =>
      let p := normalizeXZ dx dz
      { s with direction := ⟨p.1, v, p.2⟩, keys := ks }

/-- The release handler of `FirstPerson::event` (the `e.release` closure). -/
def FirstPerson.release (s : FirstPerson) (b : Button) : FirstPerson :=
  if b = s.settings.move_forward_button then
    s.releaseSet .moveForward .moveBackward 1 .moveForward
  else if b = s.settings.move_backward_button then
    s.releaseSet .moveBackward .moveForward (-1) .moveBackward
  else if b = s.settings.strafe_left_button then
    s.releaseSet .strafeLeft .strafeRight (-1) .strafeLeft
  else if b = s.settings.strafe_right_button then
    s.releaseSet .strafeRight .strafeLeft 1 .strafeRight
  else if b = s.settings.fly_up_button then
    s.releaseSet .flyUp .flyDown (-1) .flyUp
  else if b = s.settings.fly_down_button then
    s.releaseSet .flyDown .flyUp 1 .flyDown
  else if b = s.settings.move_faster_button then
    { s with velocity := 1 }
  else s

/-- The mouse-relative handler of `FirstPerson::event`: yaw decreases by
the scaled horizontal delta and is wrapped modulo `2π` (Rust `%`); pitch
increases by the scaled vertical delta and is clamped, via
`.min(π/2).max(-π/2)`, to `[-π/2, π/2]`. -/
def FirstPerson.mouseRelativeStep (s : FirstPerson) (dx dy : ℝ) :
    FirstPerson :=
  let dx := dx * s.settings.mouse_sensitivity_horizontal
  let dy := dy * s.settings.mouse_sensitivity_vertical
  let yaw := rustRem (s.yaw - dx / 360 * Real.pi / 4) (2 * Real.pi)
  let pitch := s.pitch + dy / 360 * Real.pi / 4
  let pitch := max (min pitch (Real.pi / 2)) (-(Real.pi / 2))
  { s with yaw := yaw, pitch := pitch }

/-- One `GenericEvent` delivered to a controller: per call at most one of
time-advance (`update`), relative pointer motion, scroll, press, release
fires. -/
inductive Event where
  | update (dt : ℝ)
  | mouseRelative (dx dy : ℝ)
  | mouseScroll (dx dy : ℝ)
  | press (b : Button)
  | release (b : Button)

/-- `FirstPerson::event`: the update branch writes `camera(dt).position`
back as the controller position; the other branches dispatch to the
mouse-relative, press and release handlers.  (The first-person controller
has no scroll handler.) -/
def FirstPerson.event (s : FirstPerson) : Event → FirstPerson
  | .update dt => { s with position := (s.camera dt).position }
  | .mouseRelative dx dy => s.mouseRelativeStep dx dy
  | .mouseScroll _ _ => s
  | .press b => s.press b
  | .release b => s.release b

/-! ## Orbit-zoom controller (`src/orbit_zoom_camera.rs`) -/

/-- `orbit_zoom_camera::Keys` bitflags: the held mode keys. -/
structure OZKeys where
  zoom : Bool
  pan : Bool
  orbit : Bool

/-- `Keys::empty()`. -/
def OZKeys.empty : OZKeys := ⟨false, false, false⟩

/-- `OrbitZoomCameraSettings`. -/
structure OrbitZoomCameraSettings where
  orbit_button : Button
  zoom_button : Button
  pan_button : Button
  orbit_speed : ℝ
  pitch_speed : ℝ
  pan_speed : ℝ
  zoom_speed : ℝ

/-- `OrbitZoomCameraSettings::default()`. -/
def OrbitZoomCameraSettings.default : OrbitZoomCameraSettings :=
  { orbit_button := .mouse 0
    zoom_button := .keyboard .lctrl
    pan_button := .keyboard .lshift
    orbit_speed := 0.05
    pitch_speed := 0.1
    pan_speed := 0.1
    zoom_speed := 0.1 }

/-- `OrbitZoomCamera`: the orbit-zoom camera controller state. -/
structure OrbitZoomCamera where
  target : V3
  rotation : Quat
  pitch : ℝ
  yaw : ℝ
  distance : ℝ
  settings : OrbitZoomCameraSettings
  keys : OZKeys

/-- `OrbitZoomCamera::new(target, settings)`. -/
def OrbitZoomCamera.new (target : V3) (settings : OrbitZoomCameraSettings) :
    OrbitZoomCamera :=
  { target := target
    rotation := quatId
    distance := 10
    pitch := 0
    yaw := 0
    keys := OZKeys.empty
    settings := settings }

/-- `OrbitZoomCamera::camera(dt)`: pure projection of the current state;
`dt` is unused. -/
def OrbitZoomCamera.camera (s : OrbitZoomCamera) (_dt : ℝ) : Camera :=
  let target_to_camera := rotate_vector s.rotation ⟨0, 0, s.distance⟩
  (Camera.new (vec3_add s.target target_to_camera)).set_rotation s.rotation

/-- `OrbitZoomCamera::control_camera(dx, dy)`: pan if the PAN key is held,
else zoom if the ZOOM key is held, else orbit. -/
def OrbitZoomCamera.control_camera (s : OrbitZoomCamera) (dx dy : ℝ) :
    OrbitZoomCamera :=
  if s.keys.pan then
    let dx := dx * s.settings.pan_speed
    let dy := dy * s.settings.pan_speed
    let right := rotate_vector s.rotation ⟨1, 0, 0⟩
    let up := rotate_vector s.rotation ⟨0, 1, 0⟩
    { s with target := vec3_add (vec3_add s.target (vec3_scale up dy))
                                (vec3_scale right dx) }
  else if s.keys.zoom then
    { s with distance := s.distance + dy * s.settings.zoom_speed }
  else
    let dx := dx * s.settings.orbit_speed
    let dy := dy * s.settings.orbit_speed
    let yaw := s.yaw + dx
    let pitch := s.pitch + dy * s.settings.pitch_speed
    { s with yaw := yaw, pitch := pitch,
             rotation := quatMul (axis_angle ⟨0, 1, 0⟩ yaw)
                                 (axis_angle ⟨1, 0, 0⟩ pitch) }

/-- `OrbitZoomCamera::event`: scroll always goes through `control_camera`;
relative pointer motion only when the ORBIT key is held, with the
horizontal delta negated; press/release toggle the mode keys.  (The
orbit-zoom controller has no update handler.) -/
def OrbitZoomCamera.event (s : OrbitZoomCamera) : Event → OrbitZoomCamera
  | .update _ => s
  | .mouseScroll dx dy => s.control_camera dx dy
  | .mouseRelative dx dy =>
      if s.keys.orbit then s.control_camera (-dx) dy else s
  | .press b =>
      if b = s.settings.orbit_button then
        { s with keys := { s.keys with orbit := true } }
      else if b = s.settings.pan_button then
        { s with keys := { s.keys with pan := true } }
      else if b = s.settings.zoom_button then
        { s with keys := { s.keys with zoom := true } }
      else s
  | .release b =>
      if b = s.settings.orbit_button then
        { s with keys := { s.keys with orbit := false } }
      else if b = s.settings.pan_button then
        { s with keys := { s.keys with pan := false } }
      else if b = s.settings.zoom_button then
        { s with keys := { s.keys with zoom := false } }
      else s

/-! ## Helper lemmas -/

theorem sqrt2_pos : 0 < Real.sqrt 2 :=
  Real.sqrt_pos.mpr two_pos

theorem sgn_zero : sgn 0 = 0 := by
  simp [sgn]

theorem sgn_of_pos {x : ℝ} (h : 0 < x) : sgn x = 1 := by
  simp [sgn, h.ne', h]

theorem sgn_of_neg {x : ℝ} (h : x < 0) : sgn x = -1 := by
  simp [sgn, h.ne, h.not_lt]

theorem sgn_eq_zero_iff {x : ℝ} : sgn x = 0 ↔ x = 0 := by
  unfold sgn
  split_ifs with h h' <;> simp [h]

/-- Rust's float remainder lies strictly inside `(-b, b)` for `b > 0`,
for both signs of the dividend. -/
theorem rustRem_mem (a b : ℝ) (hb : 0 < b) :
    -b < rustRem a b ∧ rustRem a b < b := by
  unfold rustRem rustTrunc
  by_cases h : 0 ≤ a / b
  · rw [if_pos h]
    have key : a - b * (⌊a / b⌋ : ℝ) = b * Int.fract (a / b) := by
      rw [Int.fract]
      field_simp
    rw [key]
    constructor
    · have := mul_nonneg hb.le (Int.fract_nonneg (a / b))
      linarith
    · have := (mul_lt_mul_left hb).mpr (Int.fract_lt_one (a / b))
      linarith
  · rw [if_neg h]
    have key : a - b * (⌈a / b⌉ : ℝ) = b * (a / b - (⌈a / b⌉ : ℝ)) := by
      field_simp
    rw [key]
    have h1 : a / b - (⌈a / b⌉ : ℝ) ≤ 0 := by
      have := Int.le_ceil (a / b)
      linarith
    have h2 : (-1 : ℝ) < a / b - (⌈a / b⌉ : ℝ) := by
      have := Int.ceil_lt_add_one (a / b)
      linarith
    constructor
    · have := (mul_lt_mul_left hb).mpr h2
      linarith
    · have := mul_nonpos_of_nonneg_of_nonpos hb.le h1
      linarith

/-! ## C1, C3 -/

/-- C1: for every first-person state and every `dt`, the time-advance
(update) event writes `camera(dt).position` back as the controller's
position, and `camera(dt)` is the current pose: its yaw/pitch are the
controller's, and its position is the controller's position advanced by
the dt-based integration.  (In the code `camera` is invoked through the
update-event hook, which performs the write-back.) -/
theorem fp_camera_update_integrates (s : FirstPerson) (dt : ℝ) :
    s.event (.update dt) = { s with position := (s.camera dt).position } ∧
    (s.camera dt).yaw = s.yaw ∧
    (s.camera dt).pitch = s.pitch ∧
    (s.camera dt).position =
      ⟨s.position.x +
         (Real.sin s.yaw * s.direction.x - Real.cos s.yaw * s.direction.z) *
           (dt * s.velocity * s.settings.speed_horizontal),
       s.position.y + s.direction.y * dt * s.settings.speed_vertical,
       s.position.z +
         (Real.sin s.yaw * s.direction.z + Real.cos s.yaw * s.direction.x) *
           (dt * s.velocity * s.settings.speed_horizontal)⟩ :=
  ⟨rfl, rfl, rfl, rfl⟩

/-- C3: the spec scenario.  From position `(0,0,0)`, wasd settings
(all speeds 1), pressing forward (`W`) and advancing time by 1 second
moves the camera to `(0,0,-1)` with velocity still 1; after pressing the
move-faster button, one further second of time moves it by `(0,0,-2)`
more, to `(0,0,-3)`. -/
theorem fp_scenario_forward_then_faster :
    ((((FirstPerson.new ⟨0, 0, 0⟩ FirstPersonSettings.keyboard_wasd).event
        (.press (.keyboard .w))).camera 1).position = ⟨0, 0, -1⟩) ∧
    (((FirstPerson.new ⟨0, 0, 0⟩ FirstPersonSettings.keyboard_wasd).event
        (.press (.keyboard .w))).event (.update 1)).position = ⟨0, 0, -1⟩ ∧
    (((FirstPerson.new ⟨0, 0, 0⟩ FirstPersonSettings.keyboard_wasd).event
        (.press (.keyboard .w))).event (.update 1)).velocity = 1 ∧
    (((((FirstPerson.new ⟨0, 0, 0⟩ FirstPersonSettings.keyboard_wasd).event
        (.press (.keyboard .w))).event (.update 1)).event
        (.press (.keyboard .lctrl))).event (.update 1)).position =
      ⟨0, 0, -3⟩ := by
  norm_num +decide [FirstPerson.new, FirstPersonSettings.keyboard_wasd,
    FirstPerson.event, FirstPerson.press, FirstPerson.pressSet,
    FirstPerson.camera, Camera.new, Camera.set_yaw_pitch,
    normalizeXZ, sgn]

/-! ## C2 -/

/-- C2 counterexample: press handling does not combine held actions
additively per axis.  From the fresh wasd state, press forward then press
backward: both actions are then held, so an additive combination would
put `-1 + 1 = 0` on the lateral axis, but the code overwrites the axis
with the most recent press and stores `1`. -/
theorem fp_press_not_additive :
    let s0 := FirstPerson.new ⟨0, 0, 0⟩ FirstPersonSettings.keyboard_wasd
    let s2 := (s0.event (.press (.keyboard .w))).event (.press (.keyboard .s))
    s2.keys.moveForward = true ∧ s2.keys.moveBackward = true ∧
    s2.direction.x = 1 := by
  norm_num +decide [FirstPerson.new, FirstPersonSettings.keyboard_wasd,
    FirstPerson.event, FirstPerson.press, FirstPerson.pressSet,
    FPKeys.empty, FPKeys.insert, normalizeXZ, sgn]

theorem sgn_one : sgn (1 : ℝ) = 1 :=
  sgn_of_pos one_pos

theorem sgn_neg_one : sgn (-1 : ℝ) = -1 :=
  sgn_of_neg (by norm_num)

/-- First component of the lateral/forward normalization. -/
theorem normalizeXZ_fst (a c : ℝ) :
    (normalizeXZ a c).1 =
      if sgn a = 0 ∨ sgn c = 0 then sgn a
      else sgn a * (Real.sqrt 2)⁻¹ := by
  simp only [normalizeXZ]
  by_cases ha : sgn a = 0
  · simp [ha]
  · by_cases hc : sgn c = 0
    · simp [ha, hc]
    · simp [ha, hc, div_eq_mul_inv]

/-- Second component of the lateral/forward normalization. -/
theorem normalizeXZ_snd (a c : ℝ) :
    (normalizeXZ a c).2 =
      if sgn a = 0 ∨ sgn c = 0 then sgn c
      else sgn c * (Real.sqrt 2)⁻¹ := by
  simp only [normalizeXZ]
  by_cases ha : sgn a = 0
  · simp [ha]
  · by_cases hc : sgn c = 0
    · simp [ha, hc]
    · simp [ha, hc, div_eq_mul_inv]

theorem normalizeXZ_one_fst (c : ℝ) :
    (normalizeXZ 1 c).1 = if sgn c = 0 then 1 else (Real.sqrt 2)⁻¹ := by
  rw [normalizeXZ_fst, sgn_one]
  by_cases hc : sgn c = 0 <;> simp [hc]

theorem normalizeXZ_negone_fst (c : ℝ) :
    (normalizeXZ (-1) c).1 =
      if sgn c = 0 then -1 else -(Real.sqrt 2)⁻¹ := by
  rw [normalizeXZ_fst, sgn_neg_one]
  by_cases hc : sgn c = 0 <;> simp [hc]

theorem normalizeXZ_one_snd (c : ℝ) :
    (normalizeXZ 1 c).2 =
      if sgn c = 0 then 0 else sgn c * (Real.sqrt 2)⁻¹ := by
  rw [normalizeXZ_snd, sgn_one]
  by_cases hc : sgn c = 0 <;> simp [hc]

theorem normalizeXZ_negone_snd (c : ℝ) :
    (normalizeXZ (-1) c).2 =
      if sgn c = 0 then 0 else sgn c * (Real.sqrt 2)⁻¹ := by
  rw [normalizeXZ_snd, sgn_neg_one]
  by_cases hc : sgn c = 0 <;> simp [hc]

theorem normalizeXZ_fst_one (a : ℝ) :
    (normalizeXZ a 1).1 =
      if sgn a = 0 then 0 else sgn a * (Real.sqrt 2)⁻¹ := by
  rw [normalizeXZ_fst, sgn_one]
  by_cases ha : sgn a = 0 <;> simp [ha]

theorem normalizeXZ_fst_negone (a : ℝ) :
    (normalizeXZ a (-1)).1 =
      if sgn a = 0 then 0 else sgn a * (Real.sqrt 2)⁻¹ := by
  rw [normalizeXZ_fst, sgn_neg_one]
  by_cases ha : sgn a = 0 <;> simp [ha]

theorem normalizeXZ_snd_one (a : ℝ) :
    (normalizeXZ a 1).2 = if sgn a = 0 then 1 else (Real.sqrt 2)⁻¹ := by
  rw [normalizeXZ_snd, sgn_one]
  by_cases ha : sgn a = 0 <;> simp [ha]

theorem normalizeXZ_snd_negone (a : ℝ) :
    (normalizeXZ a (-1)).2 =
      if sgn a = 0 then -1 else -(Real.sqrt 2)⁻¹ := by
  rw [normalizeXZ_snd, sgn_neg_one]
  by_cases ha : sgn a = 0 <;> simp [ha]

theorem normalizeXZ_zero_fst (c : ℝ) : (normalizeXZ 0 c).1 = 0 := by
  rw [normalizeXZ_fst, sgn_zero]
  simp

theorem normalizeXZ_snd_zero (a : ℝ) : (normalizeXZ a 0).2 = 0 := by
  rw [normalizeXZ_snd, sgn_zero]
  simp

/-- C2 amended: pressing any of the six movement buttons overwrites the
pressed action's axis with that action's signed unit contribution
(overriding any opposing held action), the other two axes keep their
current values with the lateral/forward pair sign-normalized (sign of 0
stays 0) and scaled by `1/√2` when both are nonzero, the pressed action
is marked held, and velocity is untouched.  The hypotheses of the later
conjuncts mirror the source's match order (an earlier binding wins a
shared button). -/
theorem fp_press_overwrites_axis (s : FirstPerson) (b : Button) :
    (b = s.settings.move_forward_button →
      (s.event (.press b)).direction.x =
        (if sgn s.direction.z = 0 then -1 else -(Real.sqrt 2)⁻¹) ∧
      (s.event (.press b)).direction.y = s.direction.y ∧
      (s.event (.press b)).direction.z =
        (if sgn s.direction.z = 0 then 0
         else sgn s.direction.z * (Real.sqrt 2)⁻¹) ∧
      (s.event (.press b)).keys = s.keys.insert .moveForward ∧
      (s.event (.press b)).velocity = s.velocity) ∧
    (b = s.settings.move_backward_button →
     b ≠ s.settings.move_forward_button →
      (s.event (.press b)).direction.x =
        (if sgn s.direction.z = 0 then 1 else (Real.sqrt 2)⁻¹) ∧
      (s.event (.press b)).direction.y = s.direction.y ∧
      (s.event (.press b)).direction.z =
        (if sgn s.direction.z = 0 then 0
         else sgn s.direction.z * (Real.sqrt 2)⁻¹) ∧
      (s.event (.press b)).keys = s.keys.insert .moveBackward ∧
      (s.event (.press b)).velocity = s.velocity) ∧
    (b = s.settings.strafe_left_button →
     b ≠ s.settings.move_forward_button →
     b ≠ s.settings.move_backward_button →
      (s.event (.press b)).direction.x =
        (if sgn s.direction.x = 0 then 0
         else sgn s.direction.x * (Real.sqrt 2)⁻¹) ∧
      (s.event (.press b)).direction.y = s.direction.y ∧
      (s.event (.press b)).direction.z =
        (if sgn s.direction.x = 0 then 1 else (Real.sqrt 2)⁻¹) ∧
      (s.event (.press b)).keys = s.keys.insert .strafeLeft ∧
      (s.event (.press b)).velocity = s.velocity) ∧
    (b = s.settings.strafe_right_button →
     b ≠ s.settings.move_forward_button →
     b ≠ s.settings.move_backward_button →
     b ≠ s.settings.strafe_left_button →
      (s.event (.press b)).direction.x =
        (if sgn s.direction.x = 0 then 0
         else sgn s.direction.x * (Real.sqrt 2)⁻¹) ∧
      (s.event (.press b)).direction.y = s.direction.y ∧
      (s.event (.press b)).direction.z =
        (if sgn s.direction.x = 0 then -1 else -(Real.sqrt 2)⁻¹) ∧
      (s.event (.press b)).keys = s.keys.insert .strafeRight ∧
      (s.event (.press b)).velocity = s.velocity) ∧
    (b = s.settings.fly_up_button →
     b ≠ s.settings.move_forward_button →
     b ≠ s.settings.move_backward_button →
     b ≠ s.settings.strafe_left_button →
     b ≠ s.settings.strafe_right_button →
      (s.event (.press b)).direction.x =
        (if sgn s.direction.x = 0 ∨ sgn s.direction.z = 0
         then sgn s.direction.x
         else sgn s.direction.x * (Real.sqrt 2)⁻¹) ∧
      (s.event (.press b)).direction.y = 1 ∧
      (s.event (.press b)).direction.z =
        (if sgn s.direction.x = 0 ∨ sgn s.direction.z = 0
         then sgn s.direction.z
         else sgn s.direction.z * (Real.sqrt 2)⁻¹) ∧
      (s.event (.press b)).keys = s.keys.insert .flyUp ∧
      (s.event (.press b)).velocity = s.velocity) ∧
    (b = s.settings.fly_down_button →
     b ≠ s.settings.move_forward_button →
     b ≠ s.settings.move_backward_button →
     b ≠ s.settings.strafe_left_button →
     b ≠ s.settings.strafe_right_button →
     b ≠ s.settings.fly_up_button →
      (s.event (.press b)).direction.x =
        (if sgn s.direction.x = 0 ∨ sgn s.direction.z = 0
         then sgn s.direction.x
         else sgn s.direction.x * (Real.sqrt 2)⁻¹) ∧
      (s.event (.press b)).direction.y = -1 ∧
      (s.event (.press b)).direction.z =
        (if sgn s.direction.x = 0 ∨ sgn s.direction.z = 0
         then sgn s.direction.z
         else sgn s.direction.z * (Real.sqrt 2)⁻¹) ∧
      (s.event (.press b)).keys = s.keys.insert .flyDown ∧
      (s.event (.press b)).velocity = s.velocity) := by
  refine ⟨?_, ?_, ?_, ?_, ?_, ?_⟩
  · intro hb
    have hE : s.event (.press b) =
        s.pressSet .moveForward (-1) s.direction.y s.direction.z := by
      simp only [FirstPerson.event, FirstPerson.press]
      rw [if_pos hb]
    rw [hE]
    exact ⟨normalizeXZ_negone_fst _, rfl, normalizeXZ_negone_snd _, rfl, rfl⟩
  · intro hb h1
    have hE : s.event (.press b) =
        s.pressSet .moveBackward 1 s.direction.y s.direction.z := by
      simp only [FirstPerson.event, FirstPerson.press]
      rw [if_neg h1, if_pos hb]
    rw [hE]
    exact ⟨normalizeXZ_one_fst _, rfl, normalizeXZ_one_snd _, rfl, rfl⟩
  · intro hb h1 h2
    have hE : s.event (.press b) =
        s.pressSet .strafeLeft s.direction.x s.direction.y 1 := by
      simp only [FirstPerson.event, FirstPerson.press]
      rw [if_neg h1, if_neg h2, if_pos hb]
    rw [hE]
    exact ⟨normalizeXZ_fst_one _, rfl, normalizeXZ_snd_one _, rfl, rfl⟩
  · intro hb h1 h2 h3
    have hE : s.event (.press b) =
        s.pressSet .strafeRight s.direction.x s.direction.y (-1) := by
      simp only [FirstPerson.event, FirstPerson.press]
      rw [if_neg h1, if_neg h2, if_neg h3, if_pos hb]
    rw [hE]
    exact ⟨normalizeXZ_fst_negone _, rfl, normalizeXZ_snd_negone _, rfl, rfl⟩
  · intro hb h1 h2 h3 h4
    have hE : s.event (.press b) =
        s.pressSet .flyUp s.direction.x 1 s.direction.z := by
      simp only [FirstPerson.event, FirstPerson.press]
      rw [if_neg h1, if_neg h2, if_neg h3, if_neg h4, if_pos hb]
    rw [hE]
    exact ⟨normalizeXZ_fst _ _, rfl, normalizeXZ_snd _ _, rfl, rfl⟩
  · intro hb h1 h2 h3 h4 h5
    have hE : s.event (.press b) =
        s.pressSet .flyDown s.direction.x (-1) s.direction.z := by
      simp only [FirstPerson.event, FirstPerson.press]
      rw [if_neg h1, if_neg h2, if_neg h3, if_neg h4, if_neg h5, if_pos hb]
    rw [hE]
    exact ⟨normalizeXZ_fst _ _, rfl, normalizeXZ_snd _ _, rfl, rfl⟩

/-- Witness for `fp_press_overwrites_axis`: with backward already held in
the wasd state (direction `(1,0,0)`), pressing forward stores `-1` on the
lateral axis — the override the additive reading would put at 0 — and
marks forward held. -/
theorem fp_press_overwrites_axis_witness :
    (((FirstPerson.new ⟨0, 0, 0⟩ FirstPersonSettings.keyboard_wasd).event
        (.press (.keyboard .s))).event
          (.press (.keyboard .w))).direction.x = -1 ∧
    (((FirstPerson.new ⟨0, 0, 0⟩ FirstPersonSettings.keyboard_wasd).event
        (.press (.keyboard .s))).event
          (.press (.keyboard .w))).keys.moveForward = true ∧
    (((FirstPerson.new ⟨0, 0, 0⟩ FirstPersonSettings.keyboard_wasd).event
        (.press (.keyboard .s))).event
          (.press (.keyboard .w))).keys.moveBackward = true := by
  obtain ⟨hx, hy, hz, hk, hv⟩ :=
    (fp_press_overwrites_axis
      ((FirstPerson.new ⟨0, 0, 0⟩ FirstPersonSettings.keyboard_wasd).event
        (.press (.keyboard .s))) (.keyboard .w)).1 rfl
  have hzero : ((FirstPerson.new ⟨0, 0, 0⟩
      FirstPersonSettings.keyboard_wasd).event
        (.press (.keyboard .s))).direction.z = 0 := by
    norm_num +decide [FirstPerson.new, FirstPersonSettings.keyboard_wasd,
      FirstPerson.event, FirstPerson.press, FirstPerson.pressSet,
      normalizeXZ, sgn]
  refine ⟨?_, ?_, ?_⟩
  · rw [hx, hzero, sgn_zero, if_pos rfl]
  · rw [hk]
    rfl
  · rw [hk]
    rfl

/-! ## C8 -/

/-- C8 counterexample: from the fresh wasd state press forward, backward
and strafe-left, then release forward while backward is still held.  The
lateral axis is not set to backward's signed unit value `1`: the diagonal
normalization scales it to `1/√2 ≠ 1`. -/
theorem fp_release_restore_scaled :
    let s0 := FirstPerson.new ⟨0, 0, 0⟩ FirstPersonSettings.keyboard_wasd
    let s3 := ((s0.event (.press (.keyboard .w))).event
      (.press (.keyboard .s))).event (.press (.keyboard .a))
    let s4 := s3.event (.release (.keyboard .w))
    s4.keys.moveBackward = true ∧
    s4.direction.x = (Real.sqrt 2)⁻¹ ∧
    (Real.sqrt 2)⁻¹ ≠ 1 := by
  have h2 : (1 : ℝ) < Real.sqrt 2 := by
    rw [show (1 : ℝ) = Real.sqrt 1 by simp]
    exact Real.sqrt_lt_sqrt (by norm_num) (by norm_num)
  have hpos : 0 < (Real.sqrt 2)⁻¹ := by positivity
  refine ⟨?_, ?_, ?_⟩
  · norm_num +decide [FirstPerson.new, FirstPersonSettings.keyboard_wasd,
      FirstPerson.event, FirstPerson.press, FirstPerson.pressSet,
      FirstPerson.release, FirstPerson.releaseSet,
      FPKeys.empty, FPKeys.insert, FPKeys.remove, FPKeys.contains,
      normalizeXZ, sgn]
  · norm_num +decide [FirstPerson.new, FirstPersonSettings.keyboard_wasd,
      FirstPerson.event, FirstPerson.press, FirstPerson.pressSet,
      FirstPerson.release, FirstPerson.releaseSet,
      FPKeys.empty, FPKeys.insert, FPKeys.remove, FPKeys.contains,
      normalizeXZ, sgn, sqrt2_pos.ne', hpos.ne', hpos]
  · exact ne_of_lt (inv_lt_one_of_one_lt₀ h2)

/-- C8 amended: releasing any of the six movement buttons unmarks the
released action; the affected axis is restored to the still-held opposing
action's sign (magnitude 1 — scaled to `1/√2` when it is a
lateral/forward axis and the other of those two axes is also nonzero),
and becomes 0 when the opposing action is not held.  The vertical axis is
restored unscaled.  The hypotheses of the later conjuncts mirror the
source's match order (an earlier binding wins a shared button). -/
theorem fp_release_restores_opposing (s : FirstPerson) (b : Button) :
    (b = s.settings.move_forward_button →
      (s.event (.release b)).direction.x =
        (if s.keys.moveBackward = true then
           (if sgn s.direction.z = 0 then 1 else (Real.sqrt 2)⁻¹)
         else 0) ∧
      (s.event (.release b)).direction.y = s.direction.y ∧
      (s.event (.release b)).keys = s.keys.remove .moveForward ∧
      (s.event (.release b)).velocity = s.velocity) ∧
    (b = s.settings.move_backward_button →
     b ≠ s.settings.move_forward_button →
      (s.event (.release b)).direction.x =
        (if s.keys.moveForward = true then
           (if sgn s.direction.z = 0 then -1 else -(Real.sqrt 2)⁻¹)
         else 0) ∧
      (s.event (.release b)).direction.y = s.direction.y ∧
      (s.event (.release b)).keys = s.keys.remove .moveBackward ∧
      (s.event (.release b)).velocity = s.velocity) ∧
    (b = s.settings.strafe_left_button →
     b ≠ s.settings.move_forward_button →
     b ≠ s.settings.move_backward_button →
      (s.event (.release b)).direction.z =
        (if s.keys.strafeRight = true then
           (if sgn s.direction.x = 0 then -1 else -(Real.sqrt 2)⁻¹)
         else 0) ∧
      (s.event (.release b)).direction.y = s.direction.y ∧
      (s.event (.release b)).keys = s.keys.remove .strafeLeft ∧
      (s.event (.release b)).velocity = s.velocity) ∧
    (b = s.settings.strafe_right_button →
     b ≠ s.settings.move_forward_button →
     b ≠ s.settings.move_backward_button →
     b ≠ s.settings.strafe_left_button →
      (s.event (.release b)).direction.z =
        (if s.keys.strafeLeft = true then
           (if sgn s.direction.x = 0 then 1 else (Real.sqrt 2)⁻¹)
         else 0) ∧
      (s.event (.release b)).direction.y = s.direction.y ∧
      (s.event (.release b)).keys = s.keys.remove .strafeRight ∧
      (s.event (.release b)).velocity = s.velocity) ∧
    (b = s.settings.fly_up_button →
     b ≠ s.settings.move_forward_button →
     b ≠ s.settings.move_backward_button →
     b ≠ s.settings.strafe_left_button →
     b ≠ s.settings.strafe_right_button →
      (s.event (.release b)).direction.y =
        (if s.keys.flyDown = true then -1 else 0) ∧
      (s.event (.release b)).keys = s.keys.remove .flyUp ∧
      (s.event (.release b)).velocity = s.velocity) ∧
    (b = s.settings.fly_down_button →
     b ≠ s.settings.move_forward_button →
     b ≠ s.settings.move_backward_button →
     b ≠ s.settings.strafe_left_button →
     b ≠ s.settings.strafe_right_button →
     b ≠ s.settings.fly_up_button →
      (s.event (.release b)).direction.y =
        (if s.keys.flyUp = true then 1 else 0) ∧
      (s.event (.release b)).keys = s.keys.remove .flyDown ∧
      (s.event (.release b)).velocity = s.velocity) := by
  refine ⟨?_, ?_, ?_, ?_, ?_, ?_⟩
  · intro hb
    have hE : s.event (.release b) =
        s.releaseSet .moveForward .moveBackward 1 .moveForward := by
      simp only [FirstPerson.event, FirstPerson.release]
      rw [if_pos hb]
    rw [hE]
    refine ⟨?_, rfl, rfl, rfl⟩
    have hv : (s.keys.remove FPAction.moveForward).contains
        FPAction.moveBackward = s.keys.moveBackward := rfl
    show (normalizeXZ _ s.direction.z).1 = _
    rw [hv]
    by_cases hB : s.keys.moveBackward = true
    · rw [if_pos hB, if_pos hB, normalizeXZ_one_fst]
    · rw [if_neg hB, if_neg hB, normalizeXZ_zero_fst]
  · intro hb h1
    have hE : s.event (.release b) =
        s.releaseSet .moveBackward .moveForward (-1) .moveBackward := by
      simp only [FirstPerson.event, FirstPerson.release]
      rw [if_neg h1, if_pos hb]
    rw [hE]
    refine ⟨?_, rfl, rfl, rfl⟩
    have hv : (s.keys.remove FPAction.moveBackward).contains
        FPAction.moveForward = s.keys.moveForward := rfl
    show (normalizeXZ _ s.direction.z).1 = _
    rw [hv]
    by_cases hB : s.keys.moveForward = true
    · rw [if_pos hB, if_pos hB, normalizeXZ_negone_fst]
    · rw [if_neg hB, if_neg hB, normalizeXZ_zero_fst]
  · intro hb h1 h2
    have hE : s.event (.release b) =
        s.releaseSet .strafeLeft .strafeRight (-1) .strafeLeft := by
      simp only [FirstPerson.event, FirstPerson.release]
      rw [if_neg h1, if_neg h2, if_pos hb]
    rw [hE]
    refine ⟨?_, rfl, rfl, rfl⟩
    have hv : (s.keys.remove FPAction.strafeLeft).contains
        FPAction.strafeRight = s.keys.strafeRight := rfl
    show (normalizeXZ s.direction.x _).2 = _
    rw [hv]
    by_cases hB : s.keys.strafeRight = true
    · rw [if_pos hB, if_pos hB, normalizeXZ_snd_negone]
    · rw [if_neg hB, if_neg hB, normalizeXZ_snd_zero]
  · intro hb h1 h2 h3
    have hE : s.event (.release b) =
        s.releaseSet .strafeRight .strafeLeft 1 .strafeRight := by
      simp only [FirstPerson.event, FirstPerson.release]
      rw [if_neg h1, if_neg h2, if_neg h3, if_pos hb]
    rw [hE]
    refine ⟨?_, rfl, rfl, rfl⟩
    have hv : (s.keys.remove FPAction.strafeRight).contains
        FPAction.strafeLeft = s.keys.strafeLeft := rfl
    show (normalizeXZ s.direction.x _).2 = _
    rw [hv]
    by_cases hB : s.keys.strafeLeft = true
    · rw [if_pos hB, if_pos hB, normalizeXZ_snd_one]
    · rw [if_neg hB, if_neg hB, normalizeXZ_snd_zero]
  · intro hb h1 h2 h3 h4
    have hE : s.event (.release b) =
        s.releaseSet .flyUp .flyDown (-1) .flyUp := by
      simp only [FirstPerson.event, FirstPerson.release]
      rw [if_neg h1, if_neg h2, if_neg h3, if_neg h4, if_pos hb]
    rw [hE]
    refine ⟨?_, rfl, rfl⟩
    have hv : (s.keys.remove FPAction.flyUp).contains
        FPAction.flyDown = s.keys.flyDown := rfl
    show (if (s.keys.remove FPAction.flyUp).contains FPAction.flyDown
        then (-1 : ℝ) else 0) = _
    rw [hv]
  · intro hb h1 h2 h3 h4 h5
    have hE : s.event (.release b) =
        s.releaseSet .flyDown .flyUp 1 .flyDown := by
      simp only [FirstPerson.event, FirstPerson.release]
      rw [if_neg h1, if_neg h2, if_neg h3, if_neg h4, if_neg h5, if_pos hb]
    rw [hE]
    refine ⟨?_, rfl, rfl⟩
    have hv : (s.keys.remove FPAction.flyDown).contains
        FPAction.flyUp = s.keys.flyUp := rfl
    show (if (s.keys.remove FPAction.flyDown).contains FPAction.flyUp
        then (1 : ℝ) else 0) = _
    rw [hv]

/-- Witness for `fp_release_restores_opposing`: with forward and backward
both held in the wasd state, releasing forward restores the lateral axis
to backward's sign `1` (no other horizontal axis active) and unmarks
forward. -/
theorem fp_release_restores_opposing_witness :
    ((((FirstPerson.new ⟨0, 0, 0⟩ FirstPersonSettings.keyboard_wasd).event
        (.press (.keyboard .w))).event (.press (.keyboard .s))).event
          (.release (.keyboard .w))).direction.x = 1 ∧
    ((((FirstPerson.new ⟨0, 0, 0⟩ FirstPersonSettings.keyboard_wasd).event
        (.press (.keyboard .w))).event (.press (.keyboard .s))).event
          (.release (.keyboard .w))).keys.moveForward = false ∧
    ((((FirstPerson.new ⟨0, 0, 0⟩ FirstPersonSettings.keyboard_wasd).event
        (.press (.keyboard .w))).event (.press (.keyboard .s))).event
          (.release (.keyboard .w))).keys.moveBackward = true := by
  obtain ⟨hx, hy, hk, hv⟩ :=
    (fp_release_restores_opposing
      (((FirstPerson.new ⟨0, 0, 0⟩ FirstPersonSettings.keyboard_wasd).event
        (.press (.keyboard .w))).event (.press (.keyboard .s)))
      (.keyboard .w)).1 rfl
  have hB : (((FirstPerson.new ⟨0, 0, 0⟩
      FirstPersonSettings.keyboard_wasd).event
        (.press (.keyboard .w))).event
          (.press (.keyboard .s))).keys.moveBackward = true := by
    norm_num +decide [FirstPerson.new, FirstPersonSettings.keyboard_wasd,
      FirstPerson.event, FirstPerson.press, FirstPerson.pressSet,
      FPKeys.empty, FPKeys.insert]
  have hzero : (((FirstPerson.new ⟨0, 0, 0⟩
      FirstPersonSettings.keyboard_wasd).event
        (.press (.keyboard .w))).event
          (.press (.keyboard .s))).direction.z = 0 := by
    norm_num +decide [FirstPerson.new, FirstPersonSettings.keyboard_wasd,
      FirstPerson.event, FirstPerson.press, FirstPerson.pressSet,
      normalizeXZ, sgn]
  refine ⟨?_, ?_, ?_⟩
  · rw [hx, hzero, sgn_zero, if_pos hB, if_pos rfl]
  · rw [hk]
    rfl
  · rw [hk, show ((((FirstPerson.new ⟨0, 0, 0⟩
      FirstPersonSettings.keyboard_wasd).event
        (.press (.keyboard .w))).event
          (.press (.keyboard .s))).keys.remove
            FPAction.moveForward).moveBackward =
      (((FirstPerson.new ⟨0, 0, 0⟩
        FirstPersonSettings.keyboard_wasd).event
          (.press (.keyboard .w))).event
            (.press (.keyboard .s))).keys.moveBackward from rfl, hB]

/-! ## C4, C6 -/

/-- A sequence of relative pointer-delta events applied in order. -/
def FirstPerson.applyMouseMoves (s : FirstPerson) (l : List (ℝ × ℝ)) :
    FirstPerson :=
  l.foldl (fun t d => t.event (.mouseRelative d.1 d.2)) s

theorem applyMouseMoves_nil (s : FirstPerson) :
    s.applyMouseMoves [] = s := rfl

theorem applyMouseMoves_cons (s : FirstPerson) (d : ℝ × ℝ)
    (l : List (ℝ × ℝ)) :
    s.applyMouseMoves (d :: l) =
      (s.event (.mouseRelative d.1 d.2)).applyMouseMoves l := rfl

/-- One pointer-delta event leaves yaw strictly inside `(-2π, 2π)`,
whatever the incoming yaw: the wrapped value is a Rust float remainder
by `2π`. -/
theorem fp_mouse_yaw_step (s : FirstPerson) (dx dy : ℝ) :
    -(2 * Real.pi) < (s.event (.mouseRelative dx dy)).yaw ∧
    (s.event (.mouseRelative dx dy)).yaw < 2 * Real.pi :=
  rustRem_mem _ _ Real.two_pi_pos

/-- C4: for every sequence of pointer-delta events applied to a
first-person state whose yaw starts in `(-2π, 2π)`, the resulting yaw
stays strictly inside `(-2π, 2π)`: the modulo wrap lands in that interval
for positive and negative intermediate results alike. -/
theorem fp_yaw_wrap_invariant (s : FirstPerson)
    (h1 : -(2 * Real.pi) < s.yaw) (h2 : s.yaw < 2 * Real.pi)
    (l : List (ℝ × ℝ)) :
    -(2 * Real.pi) < (s.applyMouseMoves l).yaw ∧
    (s.applyMouseMoves l).yaw < 2 * Real.pi := by
  induction l generalizing s with
  | nil => exact ⟨h1, h2⟩
  | cons d t ih =>
      rw [applyMouseMoves_cons]
      exact ih _ (fp_mouse_yaw_step s d.1 d.2).1 (fp_mouse_yaw_step s d.1 d.2).2

/-- Witness for `fp_yaw_wrap_invariant`: the fresh wasd state (yaw 0)
under a large positive and a large negative horizontal delta. -/
theorem fp_yaw_wrap_invariant_witness :
    let s0 := FirstPerson.new ⟨0, 0, 0⟩ FirstPersonSettings.keyboard_wasd
    (-(2 * Real.pi) < (s0.applyMouseMoves [(123456, 0), (-654321, 0)]).yaw) ∧
    (s0.applyMouseMoves [(123456, 0), (-654321, 0)]).yaw < 2 * Real.pi :=
  fp_yaw_wrap_invariant _
    (by simpa [FirstPerson.new] using neg_neg_of_pos Real.two_pi_pos)
    (by simpa [FirstPerson.new] using Real.two_pi_pos) _

/-- One pointer-delta event leaves pitch inside `[-π/2, π/2]`, whatever
the incoming pitch: the update ends in `.min(π/2).max(-π/2)`. -/
theorem fp_mouse_pitch_step (s : FirstPerson) (dx dy : ℝ) :
    -(Real.pi / 2) ≤ (s.event (.mouseRelative dx dy)).pitch ∧
    (s.event (.mouseRelative dx dy)).pitch ≤ Real.pi / 2 := by
  refine ⟨le_max_right _ _, max_le (min_le_right _ _) ?_⟩
  have := Real.pi_pos
  linarith

/-- C6: for every sequence of pointer-delta events applied to a
first-person state whose pitch starts in `[-π/2, π/2]`, the resulting
pitch never exceeds `π/2` nor falls below `-π/2`: the clamp saturates. -/
theorem fp_pitch_clamp_invariant (s : FirstPerson)
    (h1 : -(Real.pi / 2) ≤ s.pitch) (h2 : s.pitch ≤ Real.pi / 2)
    (l : List (ℝ × ℝ)) :
    -(Real.pi / 2) ≤ (s.applyMouseMoves l).pitch ∧
    (s.applyMouseMoves l).pitch ≤ Real.pi / 2 := by
  induction l generalizing s with
  | nil => exact ⟨h1, h2⟩
  | cons d t ih =>
      rw [applyMouseMoves_cons]
      exact ih _ (fp_mouse_pitch_step s d.1 d.2).1
        (fp_mouse_pitch_step s d.1 d.2).2

/-- Witness for `fp_pitch_clamp_invariant`: the fresh wasd state
(pitch 0) under a huge downward and a huge upward vertical delta. -/
theorem fp_pitch_clamp_invariant_witness :
    let s0 := FirstPerson.new ⟨0, 0, 0⟩ FirstPersonSettings.keyboard_wasd
    (-(Real.pi / 2) ≤ (s0.applyMouseMoves [(0, 99999), (0, -99999)]).pitch) ∧
    (s0.applyMouseMoves [(0, 99999), (0, -99999)]).pitch ≤ Real.pi / 2 :=
  fp_pitch_clamp_invariant _
    (by simpa [FirstPerson.new] using (neg_neg_of_pos Real.pi_div_two_pos).le)
    (by simpa [FirstPerson.new] using Real.pi_div_two_pos.le) _

/-! ## C5 -/

theorem normalizeXZ_def (a c : ℝ) :
    normalizeXZ a c =
      if sgn a ≠ 0 ∧ sgn c ≠ 0 then
        (sgn a / Real.sqrt 2, sgn c / Real.sqrt 2)
      else (sgn a, sgn c) := rfl

theorem abs_sgn_of_ne_zero {x : ℝ} (h : sgn x ≠ 0) : |sgn x| = 1 := by
  rcases lt_trichotomy x 0 with h' | h' | h'
  · simp [sgn_of_neg h']
  · exact absurd (by simp [h', sgn_zero]) h
  · simp [sgn_of_pos h']

/-- When both results of the lateral/forward normalization are nonzero,
each has absolute value `1/√2` and their squares sum to 1. -/
theorem normalizeXZ_diag (a c : ℝ) (hx : (normalizeXZ a c).1 ≠ 0)
    (hz : (normalizeXZ a c).2 ≠ 0) :
    |(normalizeXZ a c).1| = (Real.sqrt 2)⁻¹ ∧
    |(normalizeXZ a c).2| = (Real.sqrt 2)⁻¹ ∧
    (normalizeXZ a c).1 ^ 2 + (normalizeXZ a c).2 ^ 2 = 1 := by
  rw [normalizeXZ_def] at hx hz ⊢
  by_cases h : sgn a ≠ 0 ∧ sgn c ≠ 0
  · rw [if_pos h] at hx hz ⊢
    have ha : |sgn a| = 1 := abs_sgn_of_ne_zero h.1
    have hc : |sgn c| = 1 := abs_sgn_of_ne_zero h.2
    have hs : |Real.sqrt 2| = Real.sqrt 2 := abs_of_pos sqrt2_pos
    have hsq : Real.sqrt 2 ^ 2 = 2 := Real.sq_sqrt (by norm_num)
    refine ⟨?_, ?_, ?_⟩
    · simp only [abs_div, ha, hs]
      rw [one_div]
    · simp only [abs_div, hc, hs]
      rw [one_div]
    · have ha2 : sgn a ^ 2 = 1 := by rw [← sq_abs, ha, one_pow]
      have hc2 : sgn c ^ 2 = 1 := by rw [← sq_abs, hc, one_pow]
      rw [div_pow, div_pow, ha2, hc2, hsq]
      norm_num
  · rw [if_neg h] at hx hz
    exact absurd ⟨hx, hz⟩ h

/-- Every press of one of the six movement buttons routes the direction
through the lateral/forward normalization. -/
theorem press_direction_shape (s : FirstPerson) (b : Button)
    (hb : b = s.settings.move_forward_button ∨
          b = s.settings.move_backward_button ∨
          b = s.settings.strafe_left_button ∨
          b = s.settings.strafe_right_button ∨
          b = s.settings.fly_up_button ∨
          b = s.settings.fly_down_button) :
    ∃ a y c, (s.press b).direction =
      ⟨(normalizeXZ a c).1, y, (normalizeXZ a c).2⟩ := by
  unfold FirstPerson.press
  split_ifs with h1 h2 h3 h4 h5 h6 h7
  · exact ⟨-1, s.direction.y, s.direction.z, rfl⟩
  · exact ⟨1, s.direction.y, s.direction.z, rfl⟩
  · exact ⟨s.direction.x, s.direction.y, 1, rfl⟩
  · exact ⟨s.direction.x, s.direction.y, -1, rfl⟩
  · exact ⟨s.direction.x, 1, s.direction.z, rfl⟩
  · exact ⟨s.direction.x, -1, s.direction.z, rfl⟩
  · tauto
  · tauto

/-- Every release of one of the six movement buttons routes the direction
through the lateral/forward normalization. -/
theorem release_direction_shape (s : FirstPerson) (b : Button)
    (hb : b = s.settings.move_forward_button ∨
          b = s.settings.move_backward_button ∨
          b = s.settings.strafe_left_button ∨
          b = s.settings.strafe_right_button ∨
          b = s.settings.fly_up_button ∨
          b = s.settings.fly_down_button) :
    ∃ a y c, (s.release b).direction =
      ⟨(normalizeXZ a c).1, y, (normalizeXZ a c).2⟩ := by
  unfold FirstPerson.release FirstPerson.releaseSet
  split_ifs with h1 h2 h3 h4 h5 h6 h7 <;>
    first
      | exact ⟨_, _, _, rfl⟩
      | tauto

/-- C5: after pressing or releasing any movement button, whenever both
the lateral (x) and forward (z) direction components are nonzero, each
has absolute value exactly `1/√2`, so the squared magnitude of the
(lateral, forward) pair is 1 and diagonal displacement per unit time
matches a single-axis displacement at the same `dh`. -/
theorem fp_diagonal_invariant (s : FirstPerson) (b : Button)
    (hb : b = s.settings.move_forward_button ∨
          b = s.settings.move_backward_button ∨
          b = s.settings.strafe_left_button ∨
          b = s.settings.strafe_right_button ∨
          b = s.settings.fly_up_button ∨
          b = s.settings.fly_down_button) :
    ((s.event (.press b)).direction.x ≠ 0 →
     (s.event (.press b)).direction.z ≠ 0 →
       |(s.event (.press b)).direction.x| = (Real.sqrt 2)⁻¹ ∧
       |(s.event (.press b)).direction.z| = (Real.sqrt 2)⁻¹ ∧
       (s.event (.press b)).direction.x ^ 2 +
         (s.event (.press b)).direction.z ^ 2 = 1) ∧
    ((s.event (.release b)).direction.x ≠ 0 →
     (s.event (.release b)).direction.z ≠ 0 →
       |(s.event (.release b)).direction.x| = (Real.sqrt 2)⁻¹ ∧
       |(s.event (.release b)).direction.z| = (Real.sqrt 2)⁻¹ ∧
       (s.event (.release b)).direction.x ^ 2 +
         (s.event (.release b)).direction.z ^ 2 = 1) := by
  constructor
  · obtain ⟨a, y, c, hd⟩ := press_direction_shape s b hb
    have he : s.event (.press b) = s.press b := rfl
    rw [he, hd]
    intro hx hz
    exact normalizeXZ_diag a c hx hz
  · obtain ⟨a, y, c, hd⟩ := release_direction_shape s b hb
    have he : s.event (.release b) = s.release b := rfl
    rw [he, hd]
    intro hx hz
    exact normalizeXZ_diag a c hx hz

/-- Witness for `fp_diagonal_invariant`: the wasd state with forward
already held, pressing strafe-left. -/
theorem fp_diagonal_invariant_witness :
    let s := (FirstPerson.new ⟨0, 0, 0⟩
      FirstPersonSettings.keyboard_wasd).event (.press (.keyboard .w))
    ((s.event (.press (.keyboard .a))).direction.x ≠ 0 →
     (s.event (.press (.keyboard .a))).direction.z ≠ 0 →
       |(s.event (.press (.keyboard .a))).direction.x| = (Real.sqrt 2)⁻¹ ∧
       |(s.event (.press (.keyboard .a))).direction.z| = (Real.sqrt 2)⁻¹ ∧
       (s.event (.press (.keyboard .a))).direction.x ^ 2 +
         (s.event (.press (.keyboard .a))).direction.z ^ 2 = 1) ∧
    ((s.event (.release (.keyboard .a))).direction.x ≠ 0 →
     (s.event (.release (.keyboard .a))).direction.z ≠ 0 →
       |(s.event (.release (.keyboard .a))).direction.x| = (Real.sqrt 2)⁻¹ ∧
       |(s.event (.release (.keyboard .a))).direction.z| = (Real.sqrt 2)⁻¹ ∧
       (s.event (.release (.keyboard .a))).direction.x ^ 2 +
         (s.event (.release (.keyboard .a))).direction.z ^ 2 = 1) :=
  fp_diagonal_invariant _ _ (Or.inr (Or.inr (Or.inl rfl)))

/-! ## C7 -/

/-- C7: when the PAN, ZOOM and ORBIT mode keys are all held, a scroll
event takes the pan branch (pan wins over zoom over orbit): only `target`
is modified — by the pan formula along the camera's local up and right
axes — while `distance`, `yaw`, `pitch` and `rotation` are unchanged. -/
theorem oz_pan_wins_on_scroll (s : OrbitZoomCamera) (dx dy : ℝ)
    (hp : s.keys.pan = true) (_hz : s.keys.zoom = true)
    (_ho : s.keys.orbit = true) :
    s.event (.mouseScroll dx dy) =
      { s with
          target := vec3_add
            (vec3_add s.target
              (vec3_scale (rotate_vector s.rotation ⟨0, 1, 0⟩)
                (dy * s.settings.pan_speed)))
            (vec3_scale (rotate_vector s.rotation ⟨1, 0, 0⟩)
              (dx * s.settings.pan_speed)) } ∧
    (s.event (.mouseScroll dx dy)).distance = s.distance ∧
    (s.event (.mouseScroll dx dy)).yaw = s.yaw ∧
    (s.event (.mouseScroll dx dy)).pitch = s.pitch ∧
    (s.event (.mouseScroll dx dy)).rotation = s.rotation ∧
    (s.event (.mouseScroll dx dy)).keys = s.keys := by
  have h : s.event (.mouseScroll dx dy) =
      { s with
          target := vec3_add
            (vec3_add s.target
              (vec3_scale (rotate_vector s.rotation ⟨0, 1, 0⟩)
                (dy * s.settings.pan_speed)))
            (vec3_scale (rotate_vector s.rotation ⟨1, 0, 0⟩)
              (dx * s.settings.pan_speed)) } := by
    simp [OrbitZoomCamera.event, OrbitZoomCamera.control_camera, hp]
  exact ⟨h, by rw [h], by rw [h], by rw [h], by rw [h], by rw [h]⟩

/-- Witness for `oz_pan_wins_on_scroll`: default settings, all three mode
keys held, scroll delta `(1, 2)`. -/
theorem oz_pan_wins_on_scroll_witness :
    let s : OrbitZoomCamera :=
      { OrbitZoomCamera.new ⟨0, 0, 0⟩ OrbitZoomCameraSettings.default with
        keys := ⟨true, true, true⟩ }
    s.event (.mouseScroll 1 2) =
      { s with
          target := vec3_add
            (vec3_add s.target
              (vec3_scale (rotate_vector s.rotation ⟨0, 1, 0⟩)
                (2 * s.settings.pan_speed)))
            (vec3_scale (rotate_vector s.rotation ⟨1, 0, 0⟩)
              (1 * s.settings.pan_speed)) } ∧
    (s.event (.mouseScroll 1 2)).distance = s.distance ∧
    (s.event (.mouseScroll 1 2)).yaw = s.yaw ∧
    (s.event (.mouseScroll 1 2)).pitch = s.pitch ∧
    (s.event (.mouseScroll 1 2)).rotation = s.rotation ∧
    (s.event (.mouseScroll 1 2)).keys = s.keys :=
  oz_pan_wins_on_scroll _ 1 2 rfl rfl rfl

/-! ## C9 -/

/-- C9: a press or release of a button bound to no action leaves either
controller's state unchanged (all fields intact); the handlers are total,
so no error is signalled. -/
theorem unbound_button_noop (s : FirstPerson) (t : OrbitZoomCamera)
    (b bz : Button)
    (hf1 : b ≠ s.settings.move_forward_button)
    (hf2 : b ≠ s.settings.move_backward_button)
    (hf3 : b ≠ s.settings.strafe_left_button)
    (hf4 : b ≠ s.settings.strafe_right_button)
    (hf5 : b ≠ s.settings.fly_up_button)
    (hf6 : b ≠ s.settings.fly_down_button)
    (hf7 : b ≠ s.settings.move_faster_button)
    (ho1 : bz ≠ t.settings.orbit_button)
    (ho2 : bz ≠ t.settings.pan_button)
    (ho3 : bz ≠ t.settings.zoom_button) :
    s.event (.press b) = s ∧ s.event (.release b) = s ∧
    t.event (.press bz) = t ∧ t.event (.release bz) = t := by
  refine ⟨?_, ?_, ?_, ?_⟩ <;>
    simp [FirstPerson.event, FirstPerson.press, FirstPerson.release,
      OrbitZoomCamera.event, hf1, hf2, hf3, hf4, hf5, hf6, hf7,
      ho1, ho2, ho3]

/-- Witness for `unbound_button_noop`: fresh controllers with the wasd
resp. default bindings and an unbound key. -/
theorem unbound_button_noop_witness :
    let s := FirstPerson.new ⟨0, 0, 0⟩ FirstPersonSettings.keyboard_wasd
    let t := OrbitZoomCamera.new ⟨0, 0, 0⟩ OrbitZoomCameraSettings.default
    s.event (.press (.keyboard (.other 0))) = s ∧
    s.event (.release (.keyboard (.other 0))) = s ∧
    t.event (.press (.keyboard (.other 0))) = t ∧
    t.event (.release (.keyboard (.other 0))) = t :=
  unbound_button_noop _ _ _ _
    (by decide) (by decide) (by decide) (by decide) (by decide) (by decide)
    (by decide) (by decide) (by decide) (by decide)

/-! ## C10 -/

/-- C10: in orbit mode (PAN and ZOOM not held, ORBIT held), a pointer
motion with delta `(dx, dy)` decreases yaw by `dx * orbit_speed` (the
horizontal delta is negated before `control_camera`), while a scroll with
the same delta increases yaw by `dx * orbit_speed`; the pitch update
(`dy` scaled by `orbit_speed` then `pitch_speed`) is the same through
either channel. -/
theorem oz_orbit_channel_asymmetry (s : OrbitZoomCamera) (dx dy : ℝ)
    (hp : s.keys.pan = false) (hz : s.keys.zoom = false)
    (ho : s.keys.orbit = true) :
    (s.event (.mouseRelative dx dy)).yaw =
      s.yaw - dx * s.settings.orbit_speed ∧
    (s.event (.mouseScroll dx dy)).yaw =
      s.yaw + dx * s.settings.orbit_speed ∧
    (s.event (.mouseRelative dx dy)).pitch =
      s.pitch + dy * s.settings.orbit_speed * s.settings.pitch_speed ∧
    (s.event (.mouseScroll dx dy)).pitch =
      s.pitch + dy * s.settings.orbit_speed * s.settings.pitch_speed := by
  simp only [OrbitZoomCamera.event, OrbitZoomCamera.control_camera,
    hp, hz, ho, Bool.false_eq_true, if_false, if_true]
  refine ⟨?_, ?_, ?_, ?_⟩ <;> ring_nf

/-- Witness for `oz_orbit_channel_asymmetry`: default settings with only
the ORBIT key held and delta `(3, 4)`. -/
theorem oz_orbit_channel_asymmetry_witness :
    let s : OrbitZoomCamera :=
      { OrbitZoomCamera.new ⟨0, 0, 0⟩ OrbitZoomCameraSettings.default with
        keys := ⟨false, false, true⟩ }
    (s.event (.mouseRelative 3 4)).yaw =
      s.yaw - 3 * s.settings.orbit_speed ∧
    (s.event (.mouseScroll 3 4)).yaw =
      s.yaw + 3 * s.settings.orbit_speed ∧
    (s.event (.mouseRelative 3 4)).pitch =
      s.pitch + 4 * s.settings.orbit_speed * s.settings.pitch_speed ∧
    (s.event (.mouseScroll 3 4)).pitch =
      s.pitch + 4 * s.settings.orbit_speed * s.settings.pitch_speed :=
  oz_orbit_channel_asymmetry _ 3 4 rfl rfl rfl

end CameraControllers

end
